import Mathlib

/-
Shallow embedding of the combat / AI core of the Bogue roguelike
(src/entities.py), together with proofs checking the natural-language
specification against it.

Python integers are modelled as Int (they are unbounded), booleans as Bool,
the mob registry as a List, and the pseudo-random stream (random.randrange)
as a list of raw natural numbers that successive draws consume.  Stateful
methods become functions that return the updated records explicitly.
-/

namespace Bogue

/-- Modelled from the spec: state constant from the missing data.py module.
HOLD is the row/column index 0 of the transition table. -/
def HOLD : Nat := 0

/-- Modelled from the spec: state constant from the missing data.py module.
CHASE is the row/column index 1 of the transition table. -/
def CHASE : Nat := 1

/-- Modelled from the spec: state constant from the missing data.py module.
RUN is the row/column index 2 of the transition table. -/
def RUN : Nat := 2

/-- Modelled from the spec: state constant from the missing data.py module.
DEAD is a terminal value distinct from the three table indices; the same
constant is used for a dead mob state and for the process-wide game-over
flag (the source compares both against data.DEAD). -/
def DEAD : Nat := 3

/-- The Player record: Entity fields (x, y, name, char, solid) plus the
CombatEntity fields (hp, max_hp, atk).  Display colour is omitted: it never
feeds back into the core logic. -/
structure Player where
  x : Int
  y : Int
  name : String
  char : String
  hp : Int
  max_hp : Int
  atk : Int
  solid : Bool
deriving Repr, DecidableEq

/-- Player.__init__: char "@", hp = max_hp = 300, atk = 30; CombatEntity
passes solid=True to Entity.__init__. -/
def Player.make (x y : Int) (name : String) : Player :=
  ⟨x, y, name, "@", 300, 300, 30, true⟩

/-- The Mob record: Entity and CombatEntity fields plus morale and the
behavioural state (a Nat, because the source indexes the transition table
with it and assigns the running column counter to it). -/
structure Mob where
  x : Int
  y : Int
  name : String
  char : String
  hp : Int
  max_hp : Int
  atk : Int
  morale : Int
  state : Nat
  solid : Bool
deriving Repr, DecidableEq

/-- Mob.__init__ (default initial state data.HOLD). -/
def Mob.make (x y : Int) (name char : String) (hp atk morale : Int) : Mob :=
  ⟨x, y, name, char, hp, hp, atk, morale, HOLD, true⟩

/-- Spider.__init__: Mob.__init__(x, y, "Spider", "s", 200, 15, 50). -/
def Spider.make (x y : Int) : Mob :=
  Mob.make x y "Spider" "s" 200 15 50

/-- Skeleton.__init__: Mob.__init__(x, y, "Skeleton", "S", 235, 20, 100). -/
def Skeleton.make (x y : Int) : Mob :=
  Mob.make x y "Skeleton" "S" 235 20 100

/-- The handler state visible to the core: the two spatial-collaborator
queries (fov_map visibility and world solidity), the player, the
process-wide game_state flag, the message log (modelled as the list of
added message strings), the pseudo-random stream, and the fov_refresh
signal to the renderer. -/
structure Env where
  fov : Int → Int → Bool
  is_solid : Int → Int → Bool
  player : Player
  game_state : Nat
  messages : List String
  rng : List Nat
  fov_refresh : Bool

/-- One call random.randrange(n): the next raw value of the pseudo-random
stream, reduced into [0, n) (for n > 0), together with the rest of the
stream. -/
def randrange (n : Int) (rng : List Nat) : Int × List Nat :=
  ((rng.headD 0 : Int) % n, rng.tail)

/-- Entity.move: translate by (dx, dy) unless the world reports the
destination tile solid (the source tests `not is_solid` and moves, else
silently does nothing). -/
def entity_move (is_solid : Int → Int → Bool) (x y dx dy : Int) : Int × Int :=
  if is_solid (x + dx) (y + dy) then (x, y) else (x + dx, y + dy)

/-- CombatEntity.take_damage acting on the hit-point field: if
hp - damage <= 0 the hit points are zeroed and the die() hook is invoked
(recorded by the Boolean), otherwise hp is decremented. -/
def take_damage_hp (hp damage : Int) : Int × Bool :=
  if hp - damage ≤ 0 then (0, true) else (hp - damage, false)

/-- Player.die: guarded on the process-wide game_state flag; only when the
flag is not yet DEAD does it set the flag to DEAD and the glyph to "%". -/
def Player.die (p : Player) (game_state : Nat) : Player × Nat :=
  if game_state ≠ DEAD then ({ p with char := "%" }, DEAD)
  else (p, game_state)

/-- CombatEntity.take_damage as inherited by Player: the die() hook is
Player.die, which also touches the game_state flag. -/
def Player.take_damage (p : Player) (game_state : Nat) (damage : Int) :
    Player × Nat :=
  if p.hp - damage ≤ 0 then Player.die { p with hp := 0 } game_state
  else ({ p with hp := p.hp - damage }, game_state)

/-- Mob.die, for the mob sitting at index i of the registry: sets the glyph
to "X", clears solidity, sets state to DEAD and performs send_to_back
(list.remove(self) removes exactly the object itself, i.e. the element at
index i, and list.insert(0, self) puts the updated object in front). -/
def Mob.die (m : Mob) (mobs : List Mob) (i : Nat) : Mob × List Mob :=
  let m2 : Mob := { m with char := "X", solid := false, state := DEAD }
  (m2, m2 :: mobs.eraseIdx i)

/-- CombatEntity.take_damage as inherited by Mob (the mob sits at index i
of the registry): lethal damage zeroes hp and runs Mob.die; otherwise the
decremented mob is written back in place. -/
def Mob.take_damage (m : Mob) (mobs : List Mob) (i : Nat) (damage : Int) :
    Mob × List Mob :=
  if m.hp - damage ≤ 0 then Mob.die { m with hp := 0 } mobs i
  else
    let m2 : Mob := { m with hp := m.hp - damage }
    (m2, mobs.set i m2)

/-- CombatEntity.deal_damage against an abstract target, keeping the
hasattr(target, "hp") capability check explicit: with the capability, one
draw randrange(atk + 1) is applied to the target hit points through
take_damage and returned; without it, nothing happens and the implicit
Python return value None (here: none) is produced.  Result components:
returned value, target hp afterwards, whether the target's die() hook ran,
remaining random stream. -/
def deal_damage (atk : Int) (target_has_hp : Bool) (target_hp : Int)
    (rng : List Nat) : Option Int × Int × Bool × List Nat :=
  if target_has_hp then
    let d := randrange (atk + 1) rng
    let t := take_damage_hp target_hp d.1
    (some d.1, t.1, t.2, d.2)
  else
    (none, target_hp, false, rng)

/-- The squared Euclidean distance between (x1, y1) and (x2, y2), in the
argument order of the source helper linear_dist(x1, x2, y1, y2) =
sqrt((x1-x2)^2 + (y1-y2)^2).  sqrt is strictly monotone on nonnegative
reals, so every distance comparison made by chase and run coincides with
the comparison of these squares. -/
def dist_sq (x1 x2 y1 y2 : Int) : Int :=
  (x1 - x2) ^ 2 + (y1 - y2) ^ 2

/-- Mob.in_sight: libt.map_is_in_fov(fov_map, self.x, self.y). -/
def Mob.in_sight (fov : Int → Int → Bool) (m : Mob) : Bool :=
  fov m.x m.y

/-- Mob.not_in_sight. -/
def Mob.not_in_sight (fov : Int → Int → Bool) (m : Mob) : Bool :=
  !(Mob.in_sight fov m)

/-- Mob.healthy: self.hp >= 0.4 * self.max_hp, the literal 0.4 modelled as
the rational 2/5 (the comparison is stated as 5*hp >= 2*max_hp). -/
def Mob.healthy (m : Mob) : Bool :=
  decide (5 * m.hp ≥ 2 * m.max_hp)

/-- Mob.in_sight_and_healthy. -/
def Mob.in_sight_and_healthy (fov : Int → Int → Bool) (m : Mob) : Bool :=
  Mob.in_sight fov m && Mob.healthy m

/-- Mob.in_sight_and_not_healthy: first draws randrange(101); only when the
roll exceeds morale does it evaluate in_sight and not healthy, otherwise it
returns False.  The draw is consumed in either case. -/
def Mob.in_sight_and_not_healthy (fov : Int → Int → Bool) (m : Mob)
    (rng : List Nat) : Bool × List Nat :=
  let r := randrange 101 rng
  (if r.1 > m.morale then Mob.in_sight fov m && !(Mob.healthy m) else false, r.2)

/-- The three bound predicate methods that populate the transition table. -/
inductive Check where
  | sight_and_healthy
  | sight_and_not_healthy
  | no_sight
deriving Repr, DecidableEq

/-- Evaluate one table predicate; only in_sight_and_not_healthy consumes a
random draw. -/
def runCheck (fov : Int → Int → Bool) (m : Mob) (rng : List Nat) :
    Check → Bool × List Nat
  | Check.sight_and_healthy => (Mob.in_sight_and_healthy fov m, rng)
  | Check.sight_and_not_healthy => Mob.in_sight_and_not_healthy fov m rng
  | Check.no_sight => (Mob.not_in_sight fov m, rng)

/-- Mob.state_chart built in Mob.__init__, row = current state.  A row
index outside 0..2 would raise IndexError in Python; it is unreachable
because action_handler returns first on DEAD. -/
def state_chart : Nat → List (Option Check)
  | 0 => [none, some Check.sight_and_healthy, some Check.sight_and_not_healthy]
  | 1 => [some Check.no_sight, none, some Check.sight_and_not_healthy]
  | 2 => [some Check.no_sight, some Check.sight_and_healthy, none]
  | _ => []

/-- The predicate-scanning loop of action_handler: walks every cell of the
captured row with the running column counter x, skips None cells, and on
each true predicate assigns the column index to the state and emits the
transition message for CHASE / RUN.  All cells are checked; the loop never
breaks. -/
def transition_loop (fov : Int → Int → Bool) (m : Mob) :
    List (Option Check) → Nat → Nat → List String → List Nat →
    Nat × List String × List Nat
  | [], _, st, msgs, rng => (st, msgs, rng)
  | none :: rest, x, st, msgs, rng =>
      transition_loop fov m rest (x + 1) st msgs rng
  | some c :: rest, x, st, msgs, rng =>
      let r := runCheck fov m rng c
      if r.1 then
        let msgs2 :=
          if x = CHASE then msgs ++ [m.name ++ " sees you!"]
          else if x = RUN then msgs ++ [m.name ++ " runs away!"]
          else msgs
        transition_loop fov m rest (x + 1) x msgs2 r.2
      else transition_loop fov m rest (x + 1) st msgs r.2

/-- The four axis-aligned neighbour offsets, in source order. -/
def offsets : List (Int × Int) :=
  [(1, 0), (-1, 0), (0, 1), (0, -1)]

/-- The combat exchange inside Mob.chase when a neighbour offset hits the
live player: deal_damage on the player (one randrange(atk+1) draw applied
through Player.take_damage, whose die() hook may flip game_state to DEAD),
the hit/missed message (Python truthiness: damage 0 reads as a miss), and
the killed-you message when the game_state has become DEAD. -/
def mob_attack_player (m : Mob) (env : Env) : Env :=
  let d := randrange (m.atk + 1) env.rng
  let t := Player.take_damage env.player env.game_state d.1
  let msgs1 :=
    if d.1 ≠ 0 then
      env.messages ++ [m.name ++ " attacks you for " ++ toString d.1 ++ " damage!"]
    else env.messages ++ [m.name ++ " missed!"]
  let msgs2 := if t.2 = DEAD then msgs1 ++ [m.name ++ " killed you!"] else msgs1
  { env with player := t.1, game_state := t.2, messages := msgs2, rng := d.2 }

/-- The neighbour scan of Mob.chase over the remaining offsets, threading
the running minimum distance (squared) and the best move found so far.  A
neighbour equal to the live player's tile triggers the attack branch; any
other unblocked neighbour is a movement candidate when strictly closer to
the target than the running minimum. -/
def chase_loop (m : Mob) (tx ty : Int) :
    List (Int × Int) → Env → Int → Option (Int × Int) →
    Env × Option (Int × Int)
  | [], env, _, mv => (env, mv)
  | o :: rest, env, minD, mv =>
      if m.x + o.1 = env.player.x ∧ m.y + o.2 = env.player.y ∧
          env.game_state ≠ DEAD then
        chase_loop m tx ty rest (mob_attack_player m env) minD mv
      else if env.is_solid (m.x + o.1) (m.y + o.2) then
        chase_loop m tx ty rest env minD mv
      else
        let nd := dist_sq (m.x + o.1) tx (m.y + o.2) ty
        if nd < minD then chase_loop m tx ty rest env nd (some o)
        else chase_loop m tx ty rest env minD mv

/-- Mob.chase(target): scan the four neighbour offsets (attacking the
player when adjacent and alive), then move to the best strictly-closer
unblocked neighbour if one was found (Entity.move rechecks solidity). -/
def Mob.chase (env : Env) (m : Mob) (tx ty : Int) : Mob × Env :=
  let r := chase_loop m tx ty offsets env (dist_sq m.x tx m.y ty) none
  match r.2 with
  | some o =>
      let mv := entity_move r.1.is_solid m.x m.y o.1 o.2
      ({ m with x := mv.1, y := mv.2 }, r.1)
  | none => (m, r.1)

/-- The neighbour scan of Mob.run: like chase without the attack branch,
keeping the unblocked neighbour strictly farther from the target than the
running maximum. -/
def run_loop (is_solid : Int → Int → Bool) (m : Mob) (tx ty : Int) :
    List (Int × Int) → Int → Option (Int × Int) → Int × Option (Int × Int)
  | [], maxD, mv => (maxD, mv)
  | o :: rest, maxD, mv =>
      if is_solid (m.x + o.1) (m.y + o.2) then
        run_loop is_solid m tx ty rest maxD mv
      else
        let nd := dist_sq (m.x + o.1) tx (m.y + o.2) ty
        if nd > maxD then run_loop is_solid m tx ty rest nd (some o)
        else run_loop is_solid m tx ty rest maxD mv

/-- Mob.run(target). -/
def Mob.run (env : Env) (m : Mob) (tx ty : Int) : Mob × Env :=
  let r := run_loop env.is_solid m tx ty offsets (dist_sq m.x tx m.y ty) none
  match r.2 with
  | some o =>
      let mv := entity_move env.is_solid m.x m.y o.1 o.2
      ({ m with x := mv.1, y := mv.2 }, env)
  | none => (m, env)

/-- Mob.action_handler: return immediately when DEAD; otherwise scan the
row of the current state (captured once, as Python captures the iterated
list before the loop body can reassign self.state), write the resulting
state back, then dispatch HOLD / CHASE / RUN behaviour. -/
def Mob.action_handler (env : Env) (m : Mob) : Mob × Env :=
  if m.state = DEAD then (m, env)
  else
    let r := transition_loop env.fov m (state_chart m.state) 0 m.state
      env.messages env.rng
    let m2 : Mob := { m with state := r.1 }
    let env2 : Env := { env with messages := r.2.1, rng := r.2.2 }
    if m2.state = HOLD then (m2, env2)
    else if m2.state = CHASE then Mob.chase env2 m2 env2.player.x env2.player.y
    else if m2.state = RUN then Mob.run env2 m2 env2.player.x env2.player.y
    else (m2, env2)

/-- The body of Player.move_or_attack.  The Python source iterates the mob
registry with a for loop that contains no break, followed by a for-else
clause; the else clause of a for statement runs exactly when the loop was
not left by break, so here it runs after every complete scan.  The fuel
argument counts the remaining iterations (the registry length is invariant
under the loop body: a death replaces remove-at-j by insert-at-0, which
also leaves every index above j unchanged, exactly as the Python iterator
sees it), j is the current index. -/
def moa_loop (dx dy : Int) :
    Nat → Nat → Player → List Mob → Env → Player × List Mob × Env
  | 0, _, p, mobs, env =>
      let env2 : Env := { env with fov_refresh := true }
      let mv := entity_move env2.is_solid p.x p.y dx dy
      ({ p with x := mv.1, y := mv.2 }, mobs, env2)
  | fuel + 1, j, p, mobs, env =>
      match mobs.get? j with
      | none => moa_loop dx dy fuel (j + 1) p mobs env
      | some mob =>
          if mob.x = p.x + dx ∧ mob.y = p.y + dy ∧ mob.solid then
            let d := randrange (p.atk + 1) env.rng
            let td := Mob.take_damage mob mobs j d.1
            let msgs1 :=
              if d.1 ≠ 0 then
                env.messages ++
                  ["You attack " ++ mob.name ++ " for " ++ toString d.1 ++ " damage!"]
              else env.messages ++ ["You missed!"]
            let step :=
              if td.1.state = DEAD then
                (td.2.set 0 { td.1 with name := td.1.name ++ "\x27s remains" },
                 msgs1 ++ ["You killed " ++ td.1.name ++ "!"])
              else (td.2, msgs1)
            moa_loop dx dy fuel (j + 1) p step.1
              { env with messages := step.2, rng := d.2 }
          else moa_loop dx dy fuel (j + 1) p mobs env

/-- Player.move_or_attack(dx, dy): scan the whole registry, then (because
the for loop has no break) always fall into the for-else clause, which
requests a visibility-map recomputation and performs the normal move. -/
def Player.move_or_attack (env : Env) (p : Player) (mobs : List Mob)
    (dx dy : Int) : Player × List Mob × Env :=
  moa_loop dx dy mobs.length 0 p mobs env

/-- Iterated CombatEntity.take_damage on a bare hit-point value: the hp
after a whole sequence of damage amounts. -/
def apply_damages (hp : Int) (ds : List Int) : Int :=
  ds.foldl (fun h d => (take_damage_hp h d).1) hp

/-- The movement-candidate part of the chase scan in isolation (what the
scan does on every offset that does not hit the live player): keep the
unblocked neighbour strictly closer than the running minimum.  chase_loop
coincides with it whenever the player is not adjacent. -/
def min_loop (is_solid : Int → Int → Bool) (m : Mob) (tx ty : Int) :
    List (Int × Int) → Int → Option (Int × Int) → Int × Option (Int × Int)
  | [], minD, mv => (minD, mv)
  | o :: rest, minD, mv =>
      if is_solid (m.x + o.1) (m.y + o.2) then
        min_loop is_solid m tx ty rest minD mv
      else
        let nd := dist_sq (m.x + o.1) tx (m.y + o.2) ty
        if nd < minD then min_loop is_solid m tx ty rest nd (some o)
        else min_loop is_solid m tx ty rest minD mv

/-- Scan position of each neighbour offset: (1,0) is checked first, then
(-1,0), (0,1), (0,-1); any other pair is off the scan. -/
def offset_rank (o : Int × Int) : Nat :=
  if o = ((1 : Int), (0 : Int)) then 0
  else if o = ((-1 : Int), (0 : Int)) then 1
  else if o = ((0 : Int), (1 : Int)) then 2
  else if o = ((0 : Int), (-1 : Int)) then 3
  else 4

/-- A Spider that has just died: hp zeroed by take_damage, then glyph "X",
solidity cleared and state DEAD by Mob.die. -/
def dead_spider : Mob :=
  { Spider.make 6 5 with hp := 0, state := DEAD, char := "X", solid := false }

/-- A fully visible, fully walkable test world with a live player at (9,9)
and an empty message log and random stream. -/
def quiet_env : Env :=
  ⟨fun _ _ => true, fun _ _ => false, Player.make 9 9 "hero", 0, [], [], false⟩

/-- The same test world with nothing visible. -/
def dark_env : Env :=
  ⟨fun _ _ => false, fun _ _ => false, Player.make 9 9 "hero", 0, [], [], false⟩

/-- A world in which every tile is reported solid. -/
def wall_env : Env :=
  ⟨fun _ _ => true, fun _ _ => true, Player.make 9 9 "hero", 0, [], [], false⟩

/-- Claim C1, evaluated at the failing input: with the player at (5,5), a
solid Spider at (6,5), nothing blocked in the world and a damage roll of
10, move_or_attack(1,0) both attacks the Spider (hp 200 drops to 190, an
attack message is logged) and still requests the visibility recomputation
and moves the player onto (6,5): the for loop of the source has no break,
so its else clause runs on every call. -/
theorem C1_code_evaluation :
    (fun r => (r.1.x, r.1.y, r.2.1.map Mob.hp, r.2.2.fov_refresh, r.2.2.messages))
      (Player.move_or_attack
        ⟨fun _ _ => true, fun _ _ => false, Player.make 5 5 "hero", 0, [], [10], false⟩
        (Player.make 5 5 "hero") [Spider.make 6 5] 1 0) =
    (6, 5, [190], true, ["You attack Spider for 10 damage!"]) := rfl

/-- Claim C2 fails on the code: take_damage on an entity whose hp is
already 0 re-enters the lethal branch (0 - amount <= 0), so the die() hook
runs again; for a mob that re-run is observable, because send_to_back
moves the already-dead mob back to the front of the registry.  Here:
take_damage(5) at hp 0 invokes die() again, and a dead Spider sitting at
index 1 behind a Skeleton is moved back to index 0 by take_damage(3). -/
theorem C2_counterexample :
    (take_damage_hp 0 5).2 = true ∧
    (Mob.take_damage dead_spider [Skeleton.make 1 1, dead_spider] 1 3).2 =
      [dead_spider, Skeleton.make 1 1] := by
  constructor
  · rfl
  · rfl

/-- Claim C2 as amended: take_damage(amount) with amount >= 0 on an
already-dead entity (hp = 0) never makes hp negative (it stays exactly 0),
but it does re-invoke the die() hook on every such call. -/
theorem C2_amended (d : Int) (h : 0 ≤ d) : take_damage_hp 0 d = (0, true) := by
  unfold take_damage_hp
  rw [if_pos (by omega)]

/-- Witness for C2_amended at amount 5. -/
theorem C2_amended_witness :
    (0 : Int) ≤ 5 ∧ take_damage_hp 0 5 = (0, true) :=
  ⟨by decide, C2_amended 5 (by decide)⟩

/-- Bounds preservation of a single take_damage step. -/
theorem take_damage_hp_bounds (hp d maxHp : Int) (h0 : 0 ≤ hp)
    (h1 : hp ≤ maxHp) (hd : 0 ≤ d) :
    0 ≤ (take_damage_hp hp d).1 ∧ (take_damage_hp hp d).1 ≤ maxHp := by
  unfold take_damage_hp
  split <;> constructor <;> simp <;> omega

/-- Bounds preservation of any sequence of nonnegative damage amounts. -/
theorem apply_damages_bounds (maxHp : Int) (ds : List Int) :
    ∀ hp : Int, 0 ≤ hp → hp ≤ maxHp → (∀ d ∈ ds, 0 ≤ d) →
      0 ≤ apply_damages hp ds ∧ apply_damages hp ds ≤ maxHp := by
  induction ds with
  | nil => intro hp h0 h1 _; exact ⟨h0, h1⟩
  | cons d rest ih =>
      intro hp h0 h1 hds
      have hd : 0 ≤ d := hds d (by simp)
      have step := take_damage_hp_bounds hp d maxHp h0 h1 hd
      have hrw : apply_damages hp (d :: rest) =
          apply_damages (take_damage_hp hp d).1 rest := rfl
      rw [hrw]
      exact ih (take_damage_hp hp d).1 step.1 step.2
        (fun d2 hd2 => hds d2 (by simp [hd2]))

/-- Claim C3: starting from hp = max_hp and applying only nonnegative
damage amounts, hp stays within [0, max_hp] after every prefix of calls;
a single call with d >= hp sets hp to exactly 0 and invokes die() once in
that call, while d < hp just decrements hp and does not invoke die(). -/
theorem C3_hp_invariant (maxHp : Int) (hmax : 0 ≤ maxHp) :
    (∀ ds : List Int, (∀ d ∈ ds, 0 ≤ d) →
        0 ≤ apply_damages maxHp ds ∧ apply_damages maxHp ds ≤ maxHp) ∧
    (∀ hp d : Int, 0 ≤ hp → hp ≤ maxHp → 0 ≤ d →
        (hp ≤ d → take_damage_hp hp d = (0, true)) ∧
        (d < hp → take_damage_hp hp d = (hp - d, false))) := by
  constructor
  · intro ds hds
    exact apply_damages_bounds maxHp ds maxHp hmax le_rfl hds
  · intro hp d h0 h1 hd
    constructor
    · intro hle; unfold take_damage_hp; rw [if_pos (by omega)]
    · intro hlt; unfold take_damage_hp; rw [if_neg (by omega)]

/-- Witness for C3_hp_invariant with max_hp 10: the sequence [3, 4] stays
in bounds, damage 9 at hp 4 is lethal exactly once, damage 3 at hp 10
decrements without death. -/
theorem C3_witness :
    (0 : Int) ≤ 10 ∧
    (0 ≤ apply_damages 10 [3, 4] ∧ apply_damages 10 [3, 4] ≤ 10) ∧
    take_damage_hp 4 9 = (0, true) ∧
    take_damage_hp 10 3 = (10 - 3, false) := by
  refine ⟨by decide, ?_, ?_, ?_⟩
  · exact (C3_hp_invariant 10 (by decide)).1 [3, 4] (by decide)
  · exact ((C3_hp_invariant 10 (by decide)).2 4 9 (by decide) (by decide)
      (by decide)).1 (by decide)
  · exact ((C3_hp_invariant 10 (by decide)).2 10 3 (by decide) (by decide)
      (by decide)).2 (by decide)

/-- Claim C4: a DEAD mob is terminal.  action_handler returns immediately
(mob and handler state fully unchanged), and take_damage on a 0-hp mob is
total and leaves hp at 0, state at DEAD and the position untouched. -/
theorem C4_dead_terminal (env : Env) (m : Mob) (mobs : List Mob) (i : Nat)
    (d : Int) (hdead : m.state = DEAD) (hhp : m.hp = 0) (hd : 0 ≤ d) :
    Mob.action_handler env m = (m, env) ∧
    ((Mob.take_damage m mobs i d).1.x = m.x ∧
     (Mob.take_damage m mobs i d).1.y = m.y ∧
     (Mob.take_damage m mobs i d).1.hp = 0 ∧
     (Mob.take_damage m mobs i d).1.state = DEAD) := by
  constructor
  · unfold Mob.action_handler
    rw [if_pos hdead]
  · unfold Mob.take_damage
    rw [if_pos (by omega)]
    unfold Mob.die
    exact ⟨rfl, rfl, rfl, rfl⟩

/-- Witness for C4_dead_terminal: the dead Spider in the quiet world,
damaged again for 7. -/
theorem C4_witness :
    Mob.action_handler quiet_env dead_spider = (dead_spider, quiet_env) ∧
    ((Mob.take_damage dead_spider [dead_spider] 0 7).1.x = dead_spider.x ∧
     (Mob.take_damage dead_spider [dead_spider] 0 7).1.y = dead_spider.y ∧
     (Mob.take_damage dead_spider [dead_spider] 0 7).1.hp = 0 ∧
     (Mob.take_damage dead_spider [dead_spider] 0 7).1.state = DEAD) :=
  C4_dead_terminal quiet_env dead_spider [dead_spider] 0 7 rfl rfl (by decide)

/-- Claim C6: deal_damage with a target that exposes hit points returns
exactly the drawn value, a number in [0, atk], and applies that same value
to the target through take_damage; the draw reduction is the identity on
[0, atk], so a uniform raw draw over atk+1 values induces the uniform
distribution on 0..atk; against a target without the hit-point capability
nothing is damaged and the sentinel none (Python None) is returned. -/
theorem C6_deal_damage (atk hp : Int) (hatk : 0 ≤ atk) :
    (∀ rng : List Nat,
       deal_damage atk true hp rng =
         (some ((randrange (atk + 1) rng).1),
          (take_damage_hp hp ((randrange (atk + 1) rng).1)).1,
          (take_damage_hp hp ((randrange (atk + 1) rng).1)).2,
          (randrange (atk + 1) rng).2) ∧
       0 ≤ (randrange (atk + 1) rng).1 ∧ (randrange (atk + 1) rng).1 ≤ atk) ∧
    (∀ raw : Nat, (raw : Int) ≤ atk → (randrange (atk + 1) [raw]).1 = raw) ∧
    (∀ rng : List Nat, deal_damage atk false hp rng = (none, hp, false, rng)) := by
  refine ⟨fun rng => ⟨rfl, ?_, ?_⟩, fun raw hraw => ?_, fun rng => rfl⟩
  · exact Int.emod_nonneg _ (by omega)
  · have := Int.emod_lt_of_pos ((rng.headD 0 : Int)) (show (0 : Int) < atk + 1 by omega)
    unfold randrange
    omega
  · unfold randrange
    simp only [List.headD, List.head?]
    exact Int.emod_eq_of_lt (by positivity) (by omega)

/-- Witness for C6_deal_damage at atk 15, hp 100, raw draw 7. -/
theorem C6_witness :
    (0 : Int) ≤ 15 ∧
    (deal_damage 15 true 100 [7] =
       (some ((randrange 16 [7]).1),
        (take_damage_hp 100 ((randrange 16 [7]).1)).1,
        (take_damage_hp 100 ((randrange 16 [7]).1)).2,
        (randrange 16 [7]).2) ∧
     0 ≤ (randrange 16 [7]).1 ∧ (randrange 16 [7]).1 ≤ 15) ∧
    (randrange 16 [7]).1 = 7 ∧
    deal_damage 15 false 100 [7] = (none, 100, false, [7]) := by
  refine ⟨by decide, ?_, ?_, ?_⟩
  · exact (C6_deal_damage 15 100 (by decide)).1 [7]
  · exact (C6_deal_damage 15 100 (by decide)).2.1 7 (by decide)
  · exact (C6_deal_damage 15 100 (by decide)).2.2 [7]

/-- Claim C8: Mob.die sets the glyph to the death marker "X", clears
solidity, sets state DEAD, and moves the mob to index 0 of the registry
while keeping the other mobs in their relative order (the tail is exactly
the old registry with the dying mob removed, and the length is kept); and
the concrete Spider scenario: a Spider (hp 200, atk 15, morale 50) behind
a Skeleton takes 250 damage in one call and ends with hp 0, state DEAD,
glyph changed from "s" to "X", solid false, at index 0 of the 2-element
registry. -/
theorem C8_mob_die (m : Mob) (mobs : List Mob) (i : Nat)
    (hi : i < mobs.length) :
    ((Mob.die m mobs i).1.char = "X" ∧
     (Mob.die m mobs i).1.solid = false ∧
     (Mob.die m mobs i).1.state = DEAD ∧
     (Mob.die m mobs i).2 = (Mob.die m mobs i).1 :: mobs.eraseIdx i ∧
     (Mob.die m mobs i).2.length = mobs.length) ∧
    (Mob.take_damage (Spider.make 6 5) [Skeleton.make 1 1, Spider.make 6 5] 1 250 =
       (dead_spider, [dead_spider, Skeleton.make 1 1]) ∧
     dead_spider.hp = 0 ∧ dead_spider.state = DEAD ∧ dead_spider.char = "X" ∧
     ¬dead_spider.char = "s" ∧ dead_spider.solid = false ∧
     ([dead_spider, Skeleton.make 1 1] : List Mob).length = 2) := by
  constructor
  · refine ⟨rfl, rfl, rfl, rfl, ?_⟩
    unfold Mob.die
    simp [List.length_eraseIdx, hi]
    omega
  · exact ⟨rfl, rfl, rfl, rfl, by decide, rfl, rfl⟩

/-- Witness for C8_mob_die: a fresh Spider at index 1 of a 2-mob registry. -/
theorem C8_witness :
    ((Mob.die (Spider.make 2 2) [Skeleton.make 1 1, Spider.make 2 2] 1).1.char = "X" ∧
     (Mob.die (Spider.make 2 2) [Skeleton.make 1 1, Spider.make 2 2] 1).1.solid = false ∧
     (Mob.die (Spider.make 2 2) [Skeleton.make 1 1, Spider.make 2 2] 1).1.state = DEAD ∧
     (Mob.die (Spider.make 2 2) [Skeleton.make 1 1, Spider.make 2 2] 1).2 =
       (Mob.die (Spider.make 2 2) [Skeleton.make 1 1, Spider.make 2 2] 1).1 ::
         ([Skeleton.make 1 1, Spider.make 2 2] : List Mob).eraseIdx 1 ∧
     (Mob.die (Spider.make 2 2) [Skeleton.make 1 1, Spider.make 2 2] 1).2.length =
       ([Skeleton.make 1 1, Spider.make 2 2] : List Mob).length) ∧
    (Mob.take_damage (Spider.make 6 5) [Skeleton.make 1 1, Spider.make 6 5] 1 250 =
       (dead_spider, [dead_spider, Skeleton.make 1 1]) ∧
     dead_spider.hp = 0 ∧ dead_spider.state = DEAD ∧ dead_spider.char = "X" ∧
     ¬dead_spider.char = "s" ∧ dead_spider.solid = false ∧
     ([dead_spider, Skeleton.make 1 1] : List Mob).length = 2) :=
  C8_mob_die (Spider.make 2 2) [Skeleton.make 1 1, Spider.make 2 2] 1 (by decide)

/-- Claim C9: Player.die is idempotent.  On a first call (game flag not
yet DEAD) it sets the flag to DEAD and only the glyph, to the remains
marker "%"; any call made while the flag is DEAD returns the player record
completely unchanged together with the unchanged flag. -/
theorem C9_player_die_idempotent (p : Player) (gs : Nat) (halive : gs ≠ DEAD) :
    Player.die p gs = ({ p with char := "%" }, DEAD) ∧
    (∀ q : Player, Player.die q DEAD = (q, DEAD)) := by
  constructor
  · unfold Player.die
    rw [if_pos halive]
  · intro q
    unfold Player.die
    simp

/-- Witness for C9_player_die_idempotent: first death from flag 0, then a
re-death of the resulting player under the DEAD flag. -/
theorem C9_witness :
    Player.die (Player.make 5 5 "hero") 0 =
      ({ Player.make 5 5 "hero" with char := "%" }, DEAD) ∧
    Player.die ((Player.die (Player.make 5 5 "hero") 0).1) DEAD =
      ((Player.die (Player.make 5 5 "hero") 0).1, DEAD) :=
  ⟨(C9_player_die_idempotent (Player.make 5 5 "hero") 0 (by decide)).1,
   (C9_player_die_idempotent (Player.make 5 5 "hero") 0 (by decide)).2 _⟩


/-- in_sight_and_not_healthy can only be true for an unhealthy mob. -/
theorem snh_false_of_healthy (fov : Int → Int → Bool) (m : Mob)
    (rng : List Nat) (h : Mob.healthy m = true) :
    (Mob.in_sight_and_not_healthy fov m rng).1 = false := by
  unfold Mob.in_sight_and_not_healthy
  by_cases hr : (randrange 101 rng).1 > m.morale
  · simp [hr, h]
  · simp [hr]

/-- in_sight_and_not_healthy can only be true for a visible mob. -/
theorem snh_false_of_blind (fov : Int → Int → Bool) (m : Mob)
    (rng : List Nat) (h : Mob.in_sight fov m = false) :
    (Mob.in_sight_and_not_healthy fov m rng).1 = false := by
  unfold Mob.in_sight_and_not_healthy
  by_cases hr : (randrange 101 rng).1 > m.morale
  · simp [hr, h]
  · simp [hr]

/-- chase never changes the behavioural state of the acting mob. -/
theorem chase_state_eq (env : Env) (m : Mob) (tx ty : Int) :
    (Mob.chase env m tx ty).1.state = m.state := by
  unfold Mob.chase
  rcases hmv : (chase_loop m tx ty offsets env (dist_sq m.x tx m.y ty) none).2 with _ | o
  · simp [hmv]
  · simp [hmv]

/-- run never changes the behavioural state of the acting mob. -/
theorem run_state_eq (env : Env) (m : Mob) (tx ty : Int) :
    (Mob.run env m tx ty).1.state = m.state := by
  unfold Mob.run
  rcases hmv : (run_loop env.is_solid m tx ty offsets (dist_sq m.x tx m.y ty) none).2 with _ | o
  · simp [hmv]
  · simp [hmv]

/-- Claim C7: from HOLD, a visible healthy mob transitions to CHASE on the
next action_handler call; from CHASE, a mob that is no longer in sight
transitions to HOLD. -/
theorem C7_state_transitions :
    (∀ (env : Env) (m : Mob), m.state = HOLD →
       Mob.in_sight env.fov m = true → Mob.healthy m = true →
       (Mob.action_handler env m).1.state = CHASE) ∧
    (∀ (env : Env) (m : Mob), m.state = CHASE →
       Mob.not_in_sight env.fov m = true →
       (Mob.action_handler env m).1.state = HOLD) := by
  constructor
  · intro env m hstate hsight hhealthy
    have hsh : Mob.in_sight_and_healthy env.fov m = true := by
      unfold Mob.in_sight_and_healthy
      rw [hsight, hhealthy]
      rfl
    have hsnh := snh_false_of_healthy env.fov m env.rng hhealthy
    unfold Mob.action_handler
    rw [hstate]
    rw [if_neg (by decide)]
    simp only [state_chart, HOLD, transition_loop, runCheck, hsh, hsnh, if_true, if_false]
    simp [CHASE, RUN, HOLD, chase_state_eq]
  · intro env m hstate hsight
    have hns : Mob.not_in_sight env.fov m = true := hsight
    have hblind : Mob.in_sight env.fov m = false := by
      unfold Mob.not_in_sight at hsight
      simpa using hsight
    have hsnh := snh_false_of_blind env.fov m env.rng hblind
    unfold Mob.action_handler
    rw [hstate]
    rw [if_neg (by decide)]
    simp only [state_chart, CHASE, transition_loop, runCheck, hns, hsnh, if_true, if_false]
    simp [CHASE, RUN, HOLD]

/-- Witness for C7_state_transitions: a healthy Spider at (0,0) in the
fully visible world enters CHASE; a chasing Spider in the dark world drops
back to HOLD. -/
theorem C7_witness :
    (Mob.action_handler quiet_env (Spider.make 0 0)).1.state = CHASE ∧
    (Mob.action_handler dark_env { Spider.make 0 0 with state := CHASE }).1.state = HOLD :=
  ⟨C7_state_transitions.1 quiet_env (Spider.make 0 0) rfl rfl (by decide),
   C7_state_transitions.2 dark_env { Spider.make 0 0 with state := CHASE } rfl rfl⟩


/-- Claim C10: in every row of the transition table the two populated
predicates are mutually exclusive (whatever random draws each one sees),
so although action_handler checks every cell of the row, at most one
predicate fires per call: the state is reassigned at most once, the final
state is the one of the unique true cell (or the old state), and at most
one transition message is appended. -/
theorem C10_row_mutual_exclusion :
    (∀ (fov : Int → Int → Bool) (m : Mob) (r1 r2 : List Nat),
       ¬((runCheck fov m r1 Check.sight_and_healthy).1 = true ∧
         (runCheck fov m r2 Check.sight_and_not_healthy).1 = true)) ∧
    (∀ (fov : Int → Int → Bool) (m : Mob) (r1 r2 : List Nat),
       ¬((runCheck fov m r1 Check.no_sight).1 = true ∧
         (runCheck fov m r2 Check.sight_and_not_healthy).1 = true)) ∧
    (∀ (fov : Int → Int → Bool) (m : Mob) (r1 r2 : List Nat),
       ¬((runCheck fov m r1 Check.no_sight).1 = true ∧
         (runCheck fov m r2 Check.sight_and_healthy).1 = true)) ∧
    (∀ (fov : Int → Int → Bool) (m : Mob) (st : Nat) (msgs : List String)
       (rng : List Nat), st < 3 →
       (transition_loop fov m (state_chart st) 0 st msgs rng).2.1.length ≤
         msgs.length + 1 ∧
       (transition_loop fov m (state_chart st) 0 st msgs rng).1 =
         (if st = HOLD then
            (if Mob.in_sight_and_healthy fov m = true then CHASE
             else if (Mob.in_sight_and_not_healthy fov m rng).1 = true then RUN
             else HOLD)
          else if st = CHASE then
            (if Mob.not_in_sight fov m = true then HOLD
             else if (Mob.in_sight_and_not_healthy fov m rng).1 = true then RUN
             else CHASE)
          else
            (if Mob.not_in_sight fov m = true then HOLD
             else if Mob.in_sight_and_healthy fov m = true then CHASE
             else RUN))) := by
  have hsh_healthy : ∀ (fov : Int → Int → Bool) (m : Mob),
      Mob.in_sight_and_healthy fov m = true → Mob.healthy m = true := by
    intro fov m h
    unfold Mob.in_sight_and_healthy at h
    exact (Bool.and_eq_true_iff.mp h).2
  have hsh_sight : ∀ (fov : Int → Int → Bool) (m : Mob),
      Mob.in_sight_and_healthy fov m = true → Mob.in_sight fov m = true := by
    intro fov m h
    unfold Mob.in_sight_and_healthy at h
    exact (Bool.and_eq_true_iff.mp h).1
  have hns_sight : ∀ (fov : Int → Int → Bool) (m : Mob),
      Mob.not_in_sight fov m = true → Mob.in_sight fov m = false := by
    intro fov m h
    unfold Mob.not_in_sight at h
    simpa using h
  refine ⟨?_, ?_, ?_, ?_⟩
  · rintro fov m r1 r2 ⟨h1, h2⟩
    have := snh_false_of_healthy fov m r2 (hsh_healthy fov m h1)
    simp only [runCheck] at h2
    rw [this] at h2
    exact Bool.false_ne_true h2
  · rintro fov m r1 r2 ⟨h1, h2⟩
    have := snh_false_of_blind fov m r2 (hns_sight fov m h1)
    simp only [runCheck] at h2
    rw [this] at h2
    exact Bool.false_ne_true h2
  · rintro fov m r1 r2 ⟨h1, h2⟩
    have := hns_sight fov m h1
    have := hsh_sight fov m h2
    simp_all [runCheck]
  · intro fov m st msgs rng hst
    interval_cases st
    · by_cases hb1 : Mob.in_sight_and_healthy fov m = true
      · have hb2 := snh_false_of_healthy fov m rng (hsh_healthy fov m hb1)
        simp [state_chart, transition_loop, runCheck, hb1, hb2, HOLD, CHASE, RUN]
      · by_cases hb2 : (Mob.in_sight_and_not_healthy fov m rng).1 = true
        · simp [state_chart, transition_loop, runCheck, hb1, hb2, HOLD, CHASE, RUN]
        · simp [state_chart, transition_loop, runCheck, hb1, hb2, HOLD, CHASE, RUN]
    · by_cases hb1 : Mob.not_in_sight fov m = true
      · have hb2 := snh_false_of_blind fov m rng (hns_sight fov m hb1)
        simp [state_chart, transition_loop, runCheck, hb1, hb2, HOLD, CHASE, RUN]
      · by_cases hb2 : (Mob.in_sight_and_not_healthy fov m rng).1 = true
        · simp [state_chart, transition_loop, runCheck, hb1, hb2, HOLD, CHASE, RUN]
        · simp [state_chart, transition_loop, runCheck, hb1, hb2, HOLD, CHASE, RUN]
    · by_cases hb1 : Mob.not_in_sight fov m = true
      · have hb2 : Mob.in_sight_and_healthy fov m = false := by
          have := hns_sight fov m hb1
          unfold Mob.in_sight_and_healthy
          simp [this]
        simp [state_chart, transition_loop, runCheck, hb1, hb2, HOLD, CHASE, RUN]
      · by_cases hb2 : Mob.in_sight_and_healthy fov m = true
        · simp [state_chart, transition_loop, runCheck, hb1, hb2, HOLD, CHASE, RUN]
        · simp [state_chart, transition_loop, runCheck, hb1, hb2, HOLD, CHASE, RUN]

/-- Witness for C10_row_mutual_exclusion: the exclusivity instantiated for
a visible Spider, and the HOLD row evaluated on empty log and stream. -/
theorem C10_witness :
    (¬((runCheck quiet_env.fov (Spider.make 0 0) [] Check.sight_and_healthy).1 = true ∧
       (runCheck quiet_env.fov (Spider.make 0 0) [] Check.sight_and_not_healthy).1 = true)) ∧
    ((transition_loop quiet_env.fov (Spider.make 0 0) (state_chart 0) 0 0 [] []).2.1.length ≤
       ([] : List String).length + 1 ∧
     (transition_loop quiet_env.fov (Spider.make 0 0) (state_chart 0) 0 0 [] []).1 =
       (if (0 : Nat) = HOLD then
          (if Mob.in_sight_and_healthy quiet_env.fov (Spider.make 0 0) = true then CHASE
           else if (Mob.in_sight_and_not_healthy quiet_env.fov (Spider.make 0 0) []).1 = true then RUN
           else HOLD)
        else if (0 : Nat) = CHASE then
          (if Mob.not_in_sight quiet_env.fov (Spider.make 0 0) = true then HOLD
           else if (Mob.in_sight_and_not_healthy quiet_env.fov (Spider.make 0 0) []).1 = true then RUN
           else CHASE)
        else
          (if Mob.not_in_sight quiet_env.fov (Spider.make 0 0) = true then HOLD
           else if Mob.in_sight_and_healthy quiet_env.fov (Spider.make 0 0) = true then CHASE
           else RUN))) :=
  ⟨C10_row_mutual_exclusion.1 quiet_env.fov (Spider.make 0 0) [] [],
   C10_row_mutual_exclusion.2.2.2 quiet_env.fov (Spider.make 0 0) 0 [] [] (by decide)⟩


set_option maxHeartbeats 3000000 in
/-- What the run scan returns: none only when no unblocked neighbour is
strictly farther from the target than the current tile; some o only when o
is an unblocked strictly-farther neighbour that is at least as far as every
other unblocked strictly-farther neighbour, earliest in scan order among
ties. -/
theorem run_loop_char (s : Int → Int → Bool) (m : Mob) (tx ty : Int)
    (d : Int) (mv : Option (Int × Int))
    (hr : run_loop s m tx ty offsets (dist_sq m.x tx m.y ty) none = (d, mv)) :
    (mv = none → ∀ o ∈ offsets, ¬(s (m.x + o.1) (m.y + o.2) = true) →
        ¬(dist_sq m.x tx m.y ty < dist_sq (m.x + o.1) tx (m.y + o.2) ty)) ∧
    (∀ o : Int × Int, mv = some o →
        o ∈ offsets ∧
        ¬(s (m.x + o.1) (m.y + o.2) = true) ∧
        dist_sq m.x tx m.y ty < dist_sq (m.x + o.1) tx (m.y + o.2) ty ∧
        (∀ o2 ∈ offsets, ¬(s (m.x + o2.1) (m.y + o2.2) = true) →
           dist_sq m.x tx m.y ty < dist_sq (m.x + o2.1) tx (m.y + o2.2) ty →
           (dist_sq (m.x + o2.1) tx (m.y + o2.2) ty ≤
              dist_sq (m.x + o.1) tx (m.y + o.2) ty ∧
            (dist_sq (m.x + o2.1) tx (m.y + o2.2) ty =
               dist_sq (m.x + o.1) tx (m.y + o.2) ty →
             offset_rank o ≤ offset_rank o2)))) := by
  have r1 : offset_rank (1, 0) = 0 := rfl
  have r2 : offset_rank (-1, 0) = 1 := rfl
  have r3 : offset_rank (0, 1) = 2 := rfl
  have r4 : offset_rank (0, -1) = 3 := rfl
  simp only [run_loop, offsets] at hr
  simp only [offsets, List.forall_mem_cons, List.forall_mem_nil, List.mem_cons,
    List.not_mem_nil, forall_eq_or_imp, exists_eq_or_imp, forall_eq, or_false,
    false_or, and_true, true_and]
  revert hr
  generalize hg1 : s (m.x + 1) (m.y + 0) = b1
  generalize hg2 : s (m.x + -1) (m.y + 0) = b2
  generalize hg3 : s (m.x + 0) (m.y + 1) = b3
  generalize hg4 : s (m.x + 0) (m.y + -1) = b4
  generalize hd0 : dist_sq m.x tx m.y ty = e0
  generalize hd1 : dist_sq (m.x + 1) tx (m.y + 0) ty = e1
  generalize hd2 : dist_sq (m.x + -1) tx (m.y + 0) ty = e2
  generalize hd3 : dist_sq (m.x + 0) tx (m.y + 1) ty = e3
  generalize hd4 : dist_sq (m.x + 0) tx (m.y + -1) ty = e4
  intro hr
  split_ifs at hr
  all_goals injection hr with hd hmv
  all_goals subst hmv
  all_goals refine ⟨fun hnone => ?_, fun o hsome => ?_⟩
  all_goals try exact Option.noConfusion hnone
  all_goals try exact Option.noConfusion hsome
  all_goals try (injection hsome with ho; subst ho)
  all_goals
    simp_all only [hg1, hg2, hg3, hg4, hd0, hd1, hd2, hd3, hd4, r1, r2, r3, r4,
      List.mem_cons, List.not_mem_nil, Prod.mk.injEq, true_implies, false_implies,
      not_true, not_false_iff, true_and, and_true, false_and, and_false, or_false,
      false_or, or_true, true_or, implies_true, forall_const, forall_eq_or_imp,
      forall_eq, Bool.false_eq_true, Bool.true_eq_false, not_false_eq_true]
  all_goals try omega


set_option maxHeartbeats 3000000 in
/-- What the movement part of the chase scan returns: none only when no
unblocked neighbour is strictly closer to the target than the current
tile; some o only when o is an unblocked strictly-closer neighbour at
least as close as every other unblocked strictly-closer neighbour,
earliest in scan order among ties. -/
theorem min_loop_char (s : Int → Int → Bool) (m : Mob) (tx ty : Int)
    (d : Int) (mv : Option (Int × Int))
    (hr : min_loop s m tx ty offsets (dist_sq m.x tx m.y ty) none = (d, mv)) :
    (mv = none → ∀ o ∈ offsets, ¬(s (m.x + o.1) (m.y + o.2) = true) →
        ¬(dist_sq (m.x + o.1) tx (m.y + o.2) ty < dist_sq m.x tx m.y ty)) ∧
    (∀ o : Int × Int, mv = some o →
        o ∈ offsets ∧
        ¬(s (m.x + o.1) (m.y + o.2) = true) ∧
        dist_sq (m.x + o.1) tx (m.y + o.2) ty < dist_sq m.x tx m.y ty ∧
        (∀ o2 ∈ offsets, ¬(s (m.x + o2.1) (m.y + o2.2) = true) →
           dist_sq (m.x + o2.1) tx (m.y + o2.2) ty < dist_sq m.x tx m.y ty →
           (dist_sq (m.x + o.1) tx (m.y + o.2) ty ≤
              dist_sq (m.x + o2.1) tx (m.y + o2.2) ty ∧
            (dist_sq (m.x + o2.1) tx (m.y + o2.2) ty =
               dist_sq (m.x + o.1) tx (m.y + o.2) ty →
             offset_rank o ≤ offset_rank o2)))) := by
  have r1 : offset_rank (1, 0) = 0 := rfl
  have r2 : offset_rank (-1, 0) = 1 := rfl
  have r3 : offset_rank (0, 1) = 2 := rfl
  have r4 : offset_rank (0, -1) = 3 := rfl
  simp only [min_loop, offsets] at hr
  simp only [offsets, List.forall_mem_cons, List.forall_mem_nil, List.mem_cons,
    List.not_mem_nil, forall_eq_or_imp, exists_eq_or_imp, forall_eq, or_false,
    false_or, and_true, true_and]
  revert hr
  generalize hg1 : s (m.x + 1) (m.y + 0) = b1
  generalize hg2 : s (m.x + -1) (m.y + 0) = b2
  generalize hg3 : s (m.x + 0) (m.y + 1) = b3
  generalize hg4 : s (m.x + 0) (m.y + -1) = b4
  generalize hd0 : dist_sq m.x tx m.y ty = e0
  generalize hd1 : dist_sq (m.x + 1) tx (m.y + 0) ty = e1
  generalize hd2 : dist_sq (m.x + -1) tx (m.y + 0) ty = e2
  generalize hd3 : dist_sq (m.x + 0) tx (m.y + 1) ty = e3
  generalize hd4 : dist_sq (m.x + 0) tx (m.y + -1) ty = e4
  intro hr
  split_ifs at hr
  all_goals injection hr with hd hmv
  all_goals subst hmv
  all_goals refine ⟨fun hnone => ?_, fun o hsome => ?_⟩
  all_goals try exact Option.noConfusion hnone
  all_goals try exact Option.noConfusion hsome
  all_goals try (injection hsome with ho; subst ho)
  all_goals
    simp_all only [hg1, hg2, hg3, hg4, hd0, hd1, hd2, hd3, hd4, r1, r2, r3, r4,
      List.mem_cons, List.not_mem_nil, Prod.mk.injEq, true_implies, false_implies,
      not_true, not_false_iff, true_and, and_true, false_and, and_false, or_false,
      false_or, or_true, true_or, implies_true, forall_const, forall_eq_or_imp,
      forall_eq, Bool.false_eq_true, Bool.true_eq_false, not_false_eq_true]
  all_goals try omega


/-- When the player is not adjacent, the chase scan never enters its attack
branch: it leaves the handler untouched and selects movement exactly like
the pure movement scan. -/
theorem chase_loop_no_adj (m : Mob) (tx ty : Int) :
    ∀ (l : List (Int × Int)) (env : Env) (minD : Int) (mv : Option (Int × Int)),
      (∀ o ∈ l, ¬(m.x + o.1 = env.player.x ∧ m.y + o.2 = env.player.y)) →
      chase_loop m tx ty l env minD mv =
        (env, (min_loop env.is_solid m tx ty l minD mv).2) := by
  intro l
  induction l with
  | nil =>
      intro env minD mv h
      rfl
  | cons o rest ih =>
      intro env minD mv h
      have ho := h o (List.mem_cons_self o rest)
      have hrest : ∀ o2 ∈ rest,
          ¬(m.x + o2.1 = env.player.x ∧ m.y + o2.2 = env.player.y) :=
        fun o2 h2 => h o2 (List.mem_cons_of_mem o h2)
      simp only [chase_loop, min_loop]
      rw [if_neg (fun hc => ho ⟨hc.1, hc.2.1⟩)]
      by_cases hs : env.is_solid (m.x + o.1) (m.y + o.2) = true
      · rw [if_pos hs, if_pos hs]
        exact ih env minD mv hrest
      · rw [if_neg hs, if_neg hs]
        by_cases hlt : dist_sq (m.x + o.1) tx (m.y + o.2) ty < minD
        · rw [if_pos hlt, if_pos hlt]
          exact ih env _ _ hrest
        · rw [if_neg hlt, if_neg hlt]
          exact ih env minD mv hrest

/-- chase, called with the player not adjacent, moves to the unblocked
strictly-closer neighbour of least distance (first in scan order among
ties) and stays put when there is none. -/
theorem chase_selection (env : Env) (m : Mob) (tx ty : Int)
    (hadj : ∀ o ∈ offsets, ¬(m.x + o.1 = env.player.x ∧ m.y + o.2 = env.player.y)) :
    ((∀ o ∈ offsets, ¬(env.is_solid (m.x + o.1) (m.y + o.2) = true) →
        ¬(dist_sq (m.x + o.1) tx (m.y + o.2) ty < dist_sq m.x tx m.y ty)) →
      (Mob.chase env m tx ty).1.x = m.x ∧ (Mob.chase env m tx ty).1.y = m.y) ∧
    ((∃ o ∈ offsets, ¬(env.is_solid (m.x + o.1) (m.y + o.2) = true) ∧
        dist_sq (m.x + o.1) tx (m.y + o.2) ty < dist_sq m.x tx m.y ty) →
      (∃ o ∈ offsets,
         ¬(env.is_solid (m.x + o.1) (m.y + o.2) = true) ∧
         dist_sq (m.x + o.1) tx (m.y + o.2) ty < dist_sq m.x tx m.y ty ∧
         (Mob.chase env m tx ty).1.x = m.x + o.1 ∧
         (Mob.chase env m tx ty).1.y = m.y + o.2 ∧
         (∀ o2 ∈ offsets, ¬(env.is_solid (m.x + o2.1) (m.y + o2.2) = true) →
            dist_sq (m.x + o2.1) tx (m.y + o2.2) ty < dist_sq m.x tx m.y ty →
            (dist_sq (m.x + o.1) tx (m.y + o.2) ty ≤
               dist_sq (m.x + o2.1) tx (m.y + o2.2) ty ∧
             (dist_sq (m.x + o2.1) tx (m.y + o2.2) ty =
                dist_sq (m.x + o.1) tx (m.y + o.2) ty →
              offset_rank o ≤ offset_rank o2))))) := by
  rcases hml : min_loop env.is_solid m tx ty offsets (dist_sq m.x tx m.y ty) none
    with ⟨d, mv⟩
  have hc := min_loop_char env.is_solid m tx ty d mv hml
  have hch : Mob.chase env m tx ty =
      (match mv with
       | some o => ({ m with x := (entity_move env.is_solid m.x m.y o.1 o.2).1,
                             y := (entity_move env.is_solid m.x m.y o.1 o.2).2 }, env)
       | none => (m, env)) := by
    unfold Mob.chase
    rw [chase_loop_no_adj m tx ty offsets env (dist_sq m.x tx m.y ty) none hadj]
    simp only [hml]
    cases mv <;> rfl
  rcases mv with _ | o
  · constructor
    · intro hall
      rw [hch]
      exact ⟨rfl, rfl⟩
    · intro hex
      obtain ⟨o, homem, hfree, himp⟩ := hex
      exact absurd himp (hc.1 rfl o homem hfree)
  · have hb := hc.2 o rfl
    have hfree := hb.2.1
    have hmove : entity_move env.is_solid m.x m.y o.1 o.2 = (m.x + o.1, m.y + o.2) := by
      unfold entity_move
      rw [if_neg hfree]
    constructor
    · intro hall
      exact absurd hb.2.2.1 (hall o hb.1 hfree)
    · intro hex
      refine ⟨o, hb.1, hfree, hb.2.2.1, ?_, ?_, hb.2.2.2⟩
      · rw [hch]
        simp [hmove]
      · rw [hch]
        simp [hmove]

/-- run moves to the unblocked strictly-farther neighbour of greatest
distance (first in scan order among ties) and stays put when there is
none. -/
theorem run_selection (env : Env) (m : Mob) (tx ty : Int) :
    ((∀ o ∈ offsets, ¬(env.is_solid (m.x + o.1) (m.y + o.2) = true) →
        ¬(dist_sq m.x tx m.y ty < dist_sq (m.x + o.1) tx (m.y + o.2) ty)) →
      (Mob.run env m tx ty).1.x = m.x ∧ (Mob.run env m tx ty).1.y = m.y) ∧
    ((∃ o ∈ offsets, ¬(env.is_solid (m.x + o.1) (m.y + o.2) = true) ∧
        dist_sq m.x tx m.y ty < dist_sq (m.x + o.1) tx (m.y + o.2) ty) →
      (∃ o ∈ offsets,
         ¬(env.is_solid (m.x + o.1) (m.y + o.2) = true) ∧
         dist_sq m.x tx m.y ty < dist_sq (m.x + o.1) tx (m.y + o.2) ty ∧
         (Mob.run env m tx ty).1.x = m.x + o.1 ∧
         (Mob.run env m tx ty).1.y = m.y + o.2 ∧
         (∀ o2 ∈ offsets, ¬(env.is_solid (m.x + o2.1) (m.y + o2.2) = true) →
            dist_sq m.x tx m.y ty < dist_sq (m.x + o2.1) tx (m.y + o2.2) ty →
            (dist_sq (m.x + o2.1) tx (m.y + o2.2) ty ≤
               dist_sq (m.x + o.1) tx (m.y + o.2) ty ∧
             (dist_sq (m.x + o2.1) tx (m.y + o2.2) ty =
                dist_sq (m.x + o.1) tx (m.y + o.2) ty →
              offset_rank o ≤ offset_rank o2))))) := by
  rcases hml : run_loop env.is_solid m tx ty offsets (dist_sq m.x tx m.y ty) none
    with ⟨d, mv⟩
  have hc := run_loop_char env.is_solid m tx ty d mv hml
  have hch : Mob.run env m tx ty =
      (match mv with
       | some o => ({ m with x := (entity_move env.is_solid m.x m.y o.1 o.2).1,
                             y := (entity_move env.is_solid m.x m.y o.1 o.2).2 }, env)
       | none => (m, env)) := by
    unfold Mob.run
    simp only [hml]
    cases mv <;> rfl
  rcases mv with _ | o
  · constructor
    · intro hall
      rw [hch]
      exact ⟨rfl, rfl⟩
    · intro hex
      obtain ⟨o, homem, hfree, himp⟩ := hex
      exact absurd himp (hc.1 rfl o homem hfree)
  · have hb := hc.2 o rfl
    have hfree := hb.2.1
    have hmove : entity_move env.is_solid m.x m.y o.1 o.2 = (m.x + o.1, m.y + o.2) := by
      unfold entity_move
      rw [if_neg hfree]
    constructor
    · intro hall
      exact absurd hb.2.2.1 (hall o hb.1 hfree)
    · intro hex
      refine ⟨o, hb.1, hfree, hb.2.2.1, ?_, ?_, hb.2.2.2⟩
      · rw [hch]
        simp [hmove]
      · rw [hch]
        simp [hmove]


/-- Claim C5: with the target equal to the (non-adjacent) player, chase
moves the mob to the axis-aligned unblocked neighbour that strictly
minimizes the Euclidean distance to the target — ties keeping the first
neighbour in the scan order (1,0), (-1,0), (0,1), (0,-1) — and leaves the
position unchanged when no unblocked neighbour is strictly closer; run is
symmetric with strictly-farther / maximal distance. -/
theorem C5_chase_run_selection :
    (∀ (env : Env) (m : Mob) (tx ty : Int),
       tx = env.player.x → ty = env.player.y →
       (∀ o ∈ offsets, ¬(m.x + o.1 = tx ∧ m.y + o.2 = ty)) →
       (((∀ o ∈ offsets, ¬(env.is_solid (m.x + o.1) (m.y + o.2) = true) →
            ¬(dist_sq (m.x + o.1) tx (m.y + o.2) ty < dist_sq m.x tx m.y ty)) →
          (Mob.chase env m tx ty).1.x = m.x ∧ (Mob.chase env m tx ty).1.y = m.y) ∧
        ((∃ o ∈ offsets, ¬(env.is_solid (m.x + o.1) (m.y + o.2) = true) ∧
            dist_sq (m.x + o.1) tx (m.y + o.2) ty < dist_sq m.x tx m.y ty) →
          (∃ o ∈ offsets,
             ¬(env.is_solid (m.x + o.1) (m.y + o.2) = true) ∧
             dist_sq (m.x + o.1) tx (m.y + o.2) ty < dist_sq m.x tx m.y ty ∧
             (Mob.chase env m tx ty).1.x = m.x + o.1 ∧
             (Mob.chase env m tx ty).1.y = m.y + o.2 ∧
             (∀ o2 ∈ offsets, ¬(env.is_solid (m.x + o2.1) (m.y + o2.2) = true) →
                dist_sq (m.x + o2.1) tx (m.y + o2.2) ty < dist_sq m.x tx m.y ty →
                (dist_sq (m.x + o.1) tx (m.y + o.2) ty ≤
                   dist_sq (m.x + o2.1) tx (m.y + o2.2) ty ∧
                 (dist_sq (m.x + o2.1) tx (m.y + o2.2) ty =
                    dist_sq (m.x + o.1) tx (m.y + o.2) ty →
                  offset_rank o ≤ offset_rank o2))))))) ∧
    (∀ (env : Env) (m : Mob) (tx ty : Int),
       ((∀ o ∈ offsets, ¬(env.is_solid (m.x + o.1) (m.y + o.2) = true) →
           ¬(dist_sq m.x tx m.y ty < dist_sq (m.x + o.1) tx (m.y + o.2) ty)) →
         (Mob.run env m tx ty).1.x = m.x ∧ (Mob.run env m tx ty).1.y = m.y) ∧
       ((∃ o ∈ offsets, ¬(env.is_solid (m.x + o.1) (m.y + o.2) = true) ∧
           dist_sq m.x tx m.y ty < dist_sq (m.x + o.1) tx (m.y + o.2) ty) →
         (∃ o ∈ offsets,
            ¬(env.is_solid (m.x + o.1) (m.y + o.2) = true) ∧
            dist_sq m.x tx m.y ty < dist_sq (m.x + o.1) tx (m.y + o.2) ty ∧
            (Mob.run env m tx ty).1.x = m.x + o.1 ∧
            (Mob.run env m tx ty).1.y = m.y + o.2 ∧
            (∀ o2 ∈ offsets, ¬(env.is_solid (m.x + o2.1) (m.y + o2.2) = true) →
               dist_sq m.x tx m.y ty < dist_sq (m.x + o2.1) tx (m.y + o2.2) ty →
               (dist_sq (m.x + o2.1) tx (m.y + o2.2) ty ≤
                  dist_sq (m.x + o.1) tx (m.y + o.2) ty ∧
                (dist_sq (m.x + o2.1) tx (m.y + o2.2) ty =
                   dist_sq (m.x + o.1) tx (m.y + o.2) ty →
                 offset_rank o ≤ offset_rank o2)))))) := by
  constructor
  · intro env m tx ty htx hty hadj
    apply chase_selection
    intro o ho hc
    exact hadj o ho ⟨by rw [htx]; exact hc.1, by rw [hty]; exact hc.2⟩
  · intro env m tx ty
    exact run_selection env m tx ty

/-- Witness for C5_chase_run_selection: in the all-solid world no
neighbour is unblocked, so a Spider at (0,0) chasing or fleeing the player
at (9,9) stays exactly where it is. -/
theorem C5_witness :
    ((Mob.chase wall_env (Spider.make 0 0) 9 9).1.x = (Spider.make 0 0).x ∧
     (Mob.chase wall_env (Spider.make 0 0) 9 9).1.y = (Spider.make 0 0).y) ∧
    ((Mob.run wall_env (Spider.make 0 0) 9 9).1.x = (Spider.make 0 0).x ∧
     (Mob.run wall_env (Spider.make 0 0) 9 9).1.y = (Spider.make 0 0).y) :=
  ⟨(C5_chase_run_selection.1 wall_env (Spider.make 0 0) 9 9 rfl rfl
      (by decide)).1 (by decide),
   (C5_chase_run_selection.2 wall_env (Spider.make 0 0) 9 9).1 (by decide)⟩

end Bogue
